import Mathlib

/-
Verification of `scripts/throttler_data_collection.py`: a shallow embedding of the
throttler-counter collection harness (snapshot reader, delta reconciliation, workload
controller loop, and the event trace of a whole run) together with theorems about it.
External collaborators (pyluwen chips, the filesystem, subprocesses) are modelled as
explicit oracles passed in as arguments.
-/

set_option maxHeartbeats 1000000

namespace ThrottlerHarness

/-- The fixed ordered list of throttler counter names (`throttler_name` in the script). -/
def throttler_name : List String :=
  ["Fmax", "TDP", "FastTDC", "TDC", "Thm", "BoardPower", "Voltage", "GDDRThm",
   "DopplerSlow", "DopplerCritical"]

/-- Valid model names (`model_name` in the script). -/
def model_name : List String := ["llama", "wan"]

/-- Valid product types (`product_type` in the script). -/
def product_type : List String := ["p150", "p300", "galaxy"]

def RESET_UNIT_SCRATCH_RAM_BASE_ADDR : Nat := 0x80030400

def THROTTLER_COUNT_BASE_REG_ADDR : Nat := RESET_UNIT_SCRATCH_RAM_BASE_ADDR + 4 * 22

def NUM_THROTTLERS : Nat := 10

/-- Model of a pyluwen chip handle: the external hardware oracle answering
`axi_read32` requests with 32-bit words (represented as naturals). -/
structure Chip where
  axi_read32 : Nat → Nat

/-- A Python dict with string keys, in insertion order. -/
abbrev CounterMap := List (String × Nat)

/-- A snapshot: dict from asic id to its counter dict (`all_throttler_data`). -/
abbrev Snapshot := List (Nat × CounterMap)

/-- Python `m.get(k, 0)` on a counter dict. -/
def pyGetN (m : CounterMap) (k : String) : Nat := (m.lookup k).getD 0

/-- Python `m.get(k, 0)` on a signed-delta dict. -/
def pyGetZ (m : List (String × Int)) (k : String) : Int := (m.lookup k).getD 0

/-- Expected chip count per product type: the if/elif chain opening
`read_throttler_counts`; `none` is the unknown-product branch. -/
def max_chips_of : String → Option Nat
  | "p150" => some 1
  | "p300" => some 2
  | "galaxy" => some 32
  | _ => none

/-- The nested helper `read_scratch_ram` in `read_throttler_counts`. -/
def read_scratch_ram (chip : Chip) (index : Nat) : Nat :=
  chip.axi_read32 (THROTTLER_COUNT_BASE_REG_ADDR + index * 4)

/-- The per-chip loop body of `read_throttler_counts`: for i in range(NUM_THROTTLERS),
`throttler_counts[throttler_name[i]] = read_scratch_ram(i)`. -/
def chip_counts (chip : Chip) : CounterMap :=
  (List.range NUM_THROTTLERS).map (fun i => (throttler_name.getD i "", read_scratch_ram chip i))

/-- `read_throttler_counts(product_type)`, with the result of the external
`pyluwen.detect_chips()` passed in as `chips`. Returns `none` exactly where the
script returns `None` (unknown product, or chip-count mismatch). -/
def read_throttler_counts (pt : String) (chips : List Chip) : Option Snapshot :=
  match max_chips_of pt with
  | none => none
  | some max_chips =>
      if chips.length ≠ max_chips then none
      else some (chips.enum.map (fun p => (p.1, chip_counts p.2)))

/-- `throttler_delta_header(asic_id, delta_counts)`: the CSV header line
`\x7bASIC_<id>\x7d:\x7bv0,...,v9\x7d` built from `delta_counts.get(name, 0)` for each
name in `throttler_name`. -/
def throttler_delta_header (asic_id : Nat) (delta_counts : List (String × Int)) : String :=
  "\x7bASIC_" ++ toString asic_id ++ "\x7d:" ++ "\x7b" ++
    String.intercalate ","
      ((throttler_name.map (fun name => pyGetZ delta_counts name)).map toString) ++ "\x7d"

/-- The per-device delta dict built in `run_metal_test`:
`\x7bname: after.get(name, 0) - before.get(name, 0) for name in throttler_name\x7d`. -/
def delta_counts_of (before after : CounterMap) : List (String × Int) :=
  throttler_name.map (fun name => (name, (pyGetN after name : Int) - (pyGetN before name : Int)))

/-- `sorted(list(set(before.keys()) | set(after.keys())))` over natural chip ids:
realised as the ascending enumeration of the key set. -/
def chip_ids_of (before after : Snapshot) : List Nat :=
  let ks := before.map Prod.fst ++ after.map Prod.fst
  (List.range (ks.foldr max 0 + 1)).filter (fun i => ks.contains i)

/-- The `delta_lines` list built in `run_metal_test`: one header line (with trailing
newline) per chip id present in both snapshots; ids present on one side only are
skipped by the `continue`. -/
def delta_lines_of (before after : Snapshot) : List String :=
  (chip_ids_of before after).filterMap (fun asic_id =>
    match before.lookup asic_id, after.lookup asic_id with
    | some b, some a => some (throttler_delta_header asic_id (delta_counts_of b a) ++ "\n")
    | _, _ => none)

/-- Derived view of `delta_lines_of`: the chip ids that actually contribute a line. -/
def delta_ids_of (before after : Snapshot) : List Nat :=
  (chip_ids_of before after).filter
    (fun asic_id => (before.lookup asic_id).isSome && (after.lookup asic_id).isSome)

/-- `final_header = "\n".join(delta_lines) + "\n"`. -/
def final_header_of (before after : Snapshot) : String :=
  String.intercalate "\n" (delta_lines_of before after) ++ "\n"

/-- The prepend step of `run_metal_test` (read the log fully, rewrite it as header ++
original). `docker_log` is the current file contents, `none` when the file does not
exist; `writeOk` injects an I/O fault into the rewrite. The script has no handler
around this code, so a fault surfaces as an error to the caller, never as a silent
success. -/
def publish_delta (final_header : String) (docker_log : Option String) (writeOk : Bool) :
    Except String (Option String) :=
  match docker_log with
  | none => Except.ok none
  | some orig =>
      if writeOk then Except.ok (some (final_header ++ orig)) else Except.error "IOError"

/-- One line of operator-visible output from `print_throttler_counts`, at the
granularity the claims need: the empty-input message, the per-chip
missing-or-corrupted message, and the two table shapes. -/
inductive ReportLine where
  | noCounts : ReportLine
  | missingCorrupted (asic_id : Nat) : ReportLine
  | countTable (asic_id : Nat) (rows : List (String × Nat)) : ReportLine
  | deltaTable (asic_id : Nat) (rows : List (String × Nat × Nat × Int)) : ReportLine
  deriving DecidableEq, Repr

/-- `sorted(before.keys())`. -/
def sorted_keys (s : Snapshot) : List Nat :=
  (List.range ((s.map Prod.fst).foldr max 0 + 1)).filter (fun i => (s.map Prod.fst).contains i)

/-- `print_throttler_counts(before, after)` as the list of report lines it prints.
Delta mode is active iff `after` is a non-empty dict; a chip id whose `before`
entry is missing is skipped silently, while a missing `after` entry in delta mode
prints the missing-or-corrupted message. -/
def print_throttler_counts (before : Option Snapshot) (after : Option Snapshot) :
    List ReportLine :=
  match before with
  | none => [ReportLine.noCounts]
  | some b =>
    if b.isEmpty then [ReportLine.noCounts]
    else if (match after with | some a => !a.isEmpty | none => false) then
      (chip_ids_of b (after.getD [])).filterMap (fun asic_id =>
        match b.lookup asic_id with
        | none => none
        | some bc =>
          match (after.getD []).lookup asic_id with
          | none => some (ReportLine.missingCorrupted asic_id)
          | some ac => some (ReportLine.deltaTable asic_id
              (throttler_name.map (fun n =>
                (n, pyGetN bc n, pyGetN ac n, (pyGetN ac n : Int) - (pyGetN bc n : Int))))))
    else
      (sorted_keys b).filterMap (fun asic_id =>
        match b.lookup asic_id with
        | none => none
        | some bc => some (ReportLine.countTable asic_id
            (throttler_name.map (fun n => (n, pyGetN bc n)))))

/-- Behaviour of the external workload process, as observed through `poll`,
`terminate` and `kill`: `exitsAt t` means `poll` starts reporting an exit once the
post-warm-up clock reaches `t` (`none`: it never exits on its own); `diesOnTerm`
says whether the graceful terminate request has killed it by the next poll. -/
structure ProcBehavior where
  exitsAt : Option Nat
  exitCode : Int
  diesOnTerm : Bool

/-- Whether `poll()` reports the process alive at post-warm-up time `t`, given which
signals have been sent so far. -/
def procAlive (b : ProcBehavior) (t : Nat) (termSent killSent : Bool) : Bool :=
  !killSent && !(termSent && b.diesOnTerm) &&
    (match b.exitsAt with | none => true | some te => decide (t < te))

/-- How the output-pump loop of `run_metal_test` ended: the workload exited
(`poll` non-None), the deadline fired (terminate then break), or reading the
stream raised. -/
inductive LoopExit where
  | completed : LoopExit
  | timedOut : LoopExit
  | raised : LoopExit
  deriving DecidableEq, Repr

/-- Result of the workload controller: how the loop ended, the loop clock at exit,
which signals were sent, and whether the process is still alive when
`run_metal_test` hands control back. -/
structure CtrlResult where
  exit : LoopExit
  elapsed : Nat
  termSent : Bool
  killSent : Bool
  aliveAtReturn : Bool
  deriving DecidableEq, Repr

/-- Behaviour of the workload's combined output stream, as seen through the
blocking `readline()` and `read()` calls on the pipe: `eofAt` is the time the
stream reaches end-of-file (`none`: the workload keeps stdout open forever), and
`nextLineAt t` is the time a `readline()` issued at `t` returns with a line
(`none`: no further line ever arrives, so `readline` can return only at
end-of-file). -/
structure StreamBehavior where
  eofAt : Option Nat
  nextLineAt : Nat → Option Nat

/-- The `while True` pump loop of `run_metal_test`, each iteration taking at
least one clock tick: poll the process; check
`time.time() - start_time > timeout_sec` (terminate and break when exceeded);
`line = stdout.readline()`, which blocks until a line arrives or end-of-file
(echo the line, or `sleep(0.01)` on the empty end-of-file read); then
`remaining = stdout.read()`, which is inside the loop body and blocks until
end-of-file. A stream error or interrupt, injected via `raiseAt`, escapes the
loop where the stream is serviced. `fuel` bounds the number of iterations;
`none` means the loop has not ended — either fuel ran out or a blocking call
never returns. -/
def pump_loop (b : ProcBehavior) (s : StreamBehavior) (raiseAt : Option Nat)
    (timeout_sec : Int) : Nat → Nat → Option (LoopExit × Nat × Bool)
  | 0, _ => none
  | fuel + 1, t =>
      if !(procAlive b t false false) then some (LoopExit.completed, t, false)
      else if (t : Int) > timeout_sec then some (LoopExit.timedOut, t, true)
      else if raiseAt = some t then some (LoopExit.raised, t, false)
      else
        match s.nextLineAt t, s.eofAt with
        | some t1, some te =>
            -- readline returned a line at t1; read() then blocks until end-of-file
            pump_loop b s raiseAt timeout_sec fuel (max (max t t1) te + 1)
        | some _, none =>
            -- a line arrived, but read() never reaches end-of-file: blocked forever
            none
        | none, some te =>
            -- readline returned "" at end-of-file; sleep(0.01); read() is instant
            pump_loop b s raiseAt timeout_sec fuel (max t te + 1)
        | none, none =>
            -- no line ever arrives and no end-of-file: readline is blocked forever
            none

/-- The workload half of `run_metal_test`: the pump loop followed by the `finally`
block's `if docker_process.poll() is None: docker_process.kill()`. -/
def run_controller (b : ProcBehavior) (s : StreamBehavior) (raiseAt : Option Nat)
    (timeout_sec : Int) (fuel : Nat) : Option CtrlResult :=
  match pump_loop b s raiseAt timeout_sec fuel 0 with
  | none => none
  | some (ex, t, term) =>
      let aliveAfterLoop := procAlive b t term false
      some ⟨ex, t, term, aliveAfterLoop, procAlive b t term aliveAfterLoop⟩

/-- Externally visible actions of one whole run of the script, in order. -/
inductive Event where
  | readCounters (ok : Bool) : Event
  | launchWorkload : Event
  | launchSidecar : Event
  | sidecarSignal : Event
  | sidecarKill : Event
  | workloadTerminate : Event
  | workloadKill : Event
  | resetInvoke : Event
  deriving DecidableEq, Repr

/-- How the pump loop of a run ends, at trace granularity. -/
inductive LoopEnd where
  | completes : LoopEnd
  | timesOut : LoopEnd
  | streamError : LoopEnd
  | interrupted : LoopEnd
  deriving DecidableEq, Repr

/-- What, if anything, is propagating out of a code region: nothing, a
`sys.exit(code)`, a KeyboardInterrupt, or any other uncaught exception. -/
inductive Raised where
  | nothing : Raised
  | systemExit (code : Nat) : Raised
  | keyboardInterrupt : Raised
  | error : Raised
  deriving DecidableEq, Repr

/-- Everything about one invocation that the script observes from outside:
CLI arguments and the behaviour of the filesystem, devices and subprocesses.
`beforeSnapshotOk` is the outcome of the `read_throttler_counts` attempts made
before the workload runs (in `main` and again in `run_metal_test`), and
`afterSnapshotOk` the outcome of the attempts made after it — `true` iff the
call returns a snapshot, i.e. the product type is known, the detected chip count
matches the expected one and all reads succeed. `prependOk` is whether the
read-then-rewrite of the log during the delta prepend runs without an I/O
error. -/
structure Env where
  model : String
  arg : String
  beforeSnapshotOk : Bool
  afterSnapshotOk : Bool
  llamaDirExists : Bool
  telemScriptExists : Bool
  sidecarAliveAfterStart : Bool
  sidecarGraceful : Bool
  loopEnd : LoopEnd
  workloadAliveAtFinally : Bool
  ttSmiExists : Bool
  ttSmiOk : Bool
  dockerLogExists : Bool
  prependOk : Bool
  deriving DecidableEq, Repr

/-- The `finally` block of `run_metal_test`: stop the sidecar (SIGINT, then kill
if it ignores it), then kill the workload if its poll still says alive. -/
def rmt_finally (e : Env) (sidecarUp : Bool) (wlAlive : Bool) : List Event :=
  (if (["all", "read_telemetry"].contains e.arg && sidecarUp) then
     [Event.sidecarSignal] ++ (if e.sidecarGraceful then [] else [Event.sidecarKill])
   else []) ++
  (if wlAlive then [Event.workloadKill] else [])

/-- Event trace and propagated exception of `run_metal_test(model, command,
timeout, arg, product_type)`. Follows the script line by line: the llama-dir
check, the optional before snapshot, the try block (workload launch, telemetry
script check and sidecar launch, pump loop) with its `finally`, and the optional
after snapshot plus delta reconciliation. When the before snapshot succeeded but
the after one fails, `set(after_counts.keys())` dereferences `None` and the
resulting error propagates; an I/O error while rewriting the log during the
prepend also propagates, as neither has a handler. -/
def run_metal_test_trace (e : Env) : List Event × Raised :=
  if e.model = "llama" && !e.llamaDirExists then ([], Raised.systemExit 1)
  else
    let pre : List Event :=
      if ["all", "read_throttler_count"].contains e.arg then
        [Event.readCounters (e.beforeSnapshotOk)] else []
    let before_some : Bool :=
      ["all", "read_throttler_count"].contains e.arg && e.beforeSnapshotOk
    if !(["llama", "wan", "bursty"].contains e.model) then
      -- `build_docker_command` calls sys.exit(1); the `finally` then dereferences the
      -- still-None process handle, so an error (not the SystemExit) propagates.
      (pre, Raised.error)
    else if ["read_telemetry", "all"].contains e.arg && !e.telemScriptExists then
      -- sys.exit(1) after the workload launch but before the sidecar launch;
      -- the `finally` still kills the workload.
      (pre ++ [Event.launchWorkload] ++ rmt_finally e false e.workloadAliveAtFinally,
       Raised.systemExit 1)
    else
      let sidecarEvents : List Event :=
        if ["read_telemetry", "all"].contains e.arg then [Event.launchSidecar] else []
      let sidecarUp : Bool :=
        ["read_telemetry", "all"].contains e.arg && e.sidecarAliveAfterStart
      let loopEvents : List Event :=
        match e.loopEnd with
        | LoopEnd.timesOut => [Event.workloadTerminate]
        | _ => []
      let wlAlive : Bool :=
        match e.loopEnd with
        | LoopEnd.completes => false
        | _ => e.workloadAliveAtFinally
      let raisedInLoop : Raised :=
        match e.loopEnd with
        | LoopEnd.streamError => Raised.error
        | LoopEnd.interrupted => Raised.keyboardInterrupt
        | _ => Raised.nothing
      let base := pre ++ [Event.launchWorkload] ++ sidecarEvents ++ loopEvents ++
        rmt_finally e sidecarUp wlAlive
      match raisedInLoop with
      | Raised.nothing =>
          if before_some then
            if !e.afterSnapshotOk then
              -- after_counts is None: set(after_counts.keys()) raises
              (base ++ [Event.readCounters (e.afterSnapshotOk)], Raised.error)
            else if e.dockerLogExists && !e.prependOk then
              -- the unguarded rewrite of the log raises an I/O error
              (base ++ [Event.readCounters (e.afterSnapshotOk)], Raised.error)
            else
              (base ++ [Event.readCounters (e.afterSnapshotOk)], Raised.nothing)
          else (base, Raised.nothing)
      | r => (base, r)

/-- Event trace and propagated exception of `tt_smi_reset()`: exit(1) without
invoking anything when the executable is missing; otherwise one invocation, with
a RuntimeError propagating when it returns non-zero. -/
def tt_smi_reset_trace (e : Env) : List Event × Raised :=
  if !e.ttSmiExists then ([], Raised.systemExit 1)
  else if e.ttSmiOk then ([Event.resetInvoke], Raised.nothing)
  else ([Event.resetInvoke], Raised.error)

/-- Event trace and propagated exception of `main()`: the get_throttler_count
early exit, the before snapshot, `run_metal_test`, the after snapshot, then
`tt_smi_reset`. Anything raised inside `run_metal_test` propagates past the
reset call. -/
def main_trace (e : Env) : List Event × Raised :=
  if e.arg = "get_throttler_count" then
    ([Event.readCounters (e.beforeSnapshotOk)], Raised.systemExit 0)
  else
    let pre : List Event :=
      if ["all", "read_throttler_count"].contains e.arg then
        [Event.readCounters (e.beforeSnapshotOk)] else []
    match run_metal_test_trace e with
    | (rmtEv, Raised.nothing) =>
        let post : List Event :=
          if ["all", "read_throttler_count"].contains e.arg then
            [Event.readCounters (e.afterSnapshotOk)] else []
        (pre ++ rmtEv ++ post ++ (tt_smi_reset_trace e).1, (tt_smi_reset_trace e).2)
    | (rmtEv, r) => (pre ++ rmtEv, r)

/-- Process exit code produced by an exception propagating to the interpreter:
a clean return exits 0, `sys.exit(c)` exits `c`, the top-level KeyboardInterrupt
handler exits 1, and any uncaught exception makes the interpreter exit 1. -/
def exit_code_of : Raised → Nat
  | Raised.nothing => 0
  | Raised.systemExit c => c
  | Raised.keyboardInterrupt => 1
  | Raised.error => 1

/-- Event trace and final process exit code of the whole script: `main()` under
the top-level KeyboardInterrupt handler. -/
def program_trace (e : Env) : List Event × Nat :=
  ((main_trace e).1, exit_code_of (main_trace e).2)

/-- A concrete hardware oracle used to instantiate witnesses. -/
def oracle_chip : Chip := ⟨fun _ => 0⟩

/-- Lookup in an association list built by pairing each key with a function of it
returns that function of the key. -/
theorem lookup_map_key {α : Type} (f : String → α) :
    ∀ (l : List String) (n : String), n ∈ l →
      (l.map (fun m => (m, f m))).lookup n = some (f n) := by
  intro l
  induction l with
  | nil => intro n h; cases h
  | cons m l ih =>
      intro n h
      simp only [List.map_cons, List.lookup]
      by_cases hm : n = m
      · subst hm; simp
      · have hb : (n == m) = false := by simp [hm]
        rw [hb]
        exact ih n (by rcases List.mem_cons.mp h with h' | h'; exact absurd h' hm; exact h')

/-- Lookup of a key absent from the key column returns `none`. -/
theorem lookup_eq_none_of_not_mem_keys {κ β : Type} [BEq κ] [LawfulBEq κ] :
    ∀ (l : List (κ × β)) (n : κ), n ∉ l.map Prod.fst → l.lookup n = none := by
  intro l
  induction l with
  | nil => intro n _; rfl
  | cons p l ih =>
      intro n h
      obtain ⟨k, b⟩ := p
      simp only [List.map_cons, List.mem_cons, not_or] at h
      simp only [List.lookup]
      have hb : (n == k) = false := by simpa using h.1
      rw [hb]
      exact ih n h.2

/-- Lookup of a key present in the key column returns some value. -/
theorem lookup_isSome_of_mem_keys {κ β : Type} [BEq κ] [LawfulBEq κ] :
    ∀ (l : List (κ × β)) (n : κ), n ∈ l.map Prod.fst → (l.lookup n).isSome = true := by
  intro l
  induction l with
  | nil => intro n h; cases h
  | cons p l ih =>
      intro n h
      obtain ⟨k, b⟩ := p
      simp only [List.lookup]
      by_cases hk : n = k
      · subst hk; simp
      · have hb : (n == k) = false := by simp [hk]
        rw [hb]
        exact ih n (by
          simp only [List.map_cons, List.mem_cons] at h
          rcases h with h' | h'; exact absurd h' hk; exact h')

/-- Keys of the per-chip counter dict are exactly the fixed counter-name list. -/
theorem chip_counts_keys (c : Chip) : (chip_counts c).map Prod.fst = throttler_name := by
  rfl

/-- Length of the per-chip counter dict. -/
theorem chip_counts_length (c : Chip) : (chip_counts c).length = NUM_THROTTLERS := by
  rfl

/-- C2: for every topology class, a detected chip count different from the expected
count makes `read_throttler_counts` return no snapshot at all, so no per-device
read contributes to any result. -/
theorem read_counters_topology_mismatch (pt : String) (n : Nat) (chips : List Chip)
    (hexp : max_chips_of pt = some n) (hne : chips.length ≠ n) :
    read_throttler_counts pt chips = none := by
  unfold read_throttler_counts
  rw [hexp]
  simp [hne]

/-- Witness for C2: zero detected chips on a p150 (which expects one chip). -/
theorem read_counters_topology_mismatch_witness :
    read_throttler_counts "p150" [] = none :=
  read_counters_topology_mismatch "p150" 1 [] rfl (by decide)

/-- C3: the expected counts are 1, 2 and 32 for p150, p300 and galaxy, and whenever
the detected count equals the expected count, `read_throttler_counts` returns a
snapshot with exactly that many device entries indexed densely from 0, each entry
carrying exactly the fixed ordered list of 10 counter names. -/
theorem read_counters_topology_match (pt : String) (n : Nat) (chips : List Chip)
    (hexp : max_chips_of pt = some n) (hlen : chips.length = n) :
    max_chips_of "p150" = some 1 ∧ max_chips_of "p300" = some 2 ∧
    max_chips_of "galaxy" = some 32 ∧
    ∃ s, read_throttler_counts pt chips = some s ∧
      s.map Prod.fst = List.range n ∧
      ∀ cm ∈ s.map Prod.snd, cm.map Prod.fst = throttler_name ∧
        cm.length = NUM_THROTTLERS := by
  refine ⟨rfl, rfl, rfl, chips.enum.map (fun p => (p.1, chip_counts p.2)), ?_, ?_, ?_⟩
  · unfold read_throttler_counts
    rw [hexp]
    simp [hlen]
  · rw [List.map_map]
    have hf : ((fun x : Nat × CounterMap => x.1) ∘ fun p : Nat × Chip =>
        (p.1, chip_counts p.2)) = Prod.fst := rfl
    rw [hf, List.enum_map_fst, hlen]
  · intro cm hcm
    rw [List.map_map] at hcm
    obtain ⟨p, _, hp⟩ := List.mem_map.mp hcm
    rw [← hp]
    exact ⟨chip_counts_keys p.2, chip_counts_length p.2⟩

/-- Witness for C3: one detected chip on a p150. -/
theorem read_counters_topology_match_witness :
    max_chips_of "p150" = some 1 ∧ max_chips_of "p300" = some 2 ∧
    max_chips_of "galaxy" = some 32 ∧
    ∃ s, read_throttler_counts "p150" [oracle_chip] = some s ∧
      s.map Prod.fst = List.range 1 ∧
      ∀ cm ∈ s.map Prod.snd, cm.map Prod.fst = throttler_name ∧
        cm.length = NUM_THROTTLERS :=
  read_counters_topology_match "p150" 1 [oracle_chip] rfl rfl

/-- Counterexample for C4: on the spec's own concrete example (counter names `A`
and `B`, which are not among the fixed throttler names), the serialized header is
not `\x7bASIC_0\x7d:\x7b5,0\x7d` — the code always renders one value per fixed
counter name, yielding ten values, and the `A`/`B` entries are never consulted. -/
theorem delta_header_example_counterexample :
    throttler_delta_header 0
        (delta_counts_of [("A", 10), ("B", 20)] [("A", 15), ("B", 20)]) ≠
      "\x7bASIC_0\x7d:\x7b5,0\x7d" := by decide

/-- C4 (amended): the reconciled delta maps each of the ten fixed counter names to
after minus before (signed), the header serializes one signed value per fixed
counter name in order, and on the example restated with real counter names
(`before = \x7b0: \x7bFmax: 10, TDP: 20\x7d\x7d`,
`after = \x7b0: \x7bFmax: 15, TDP: 20\x7d\x7d`) the delta starts `Fmax ↦ 5, TDP ↦ 0`
with the remaining eight counters 0 and the header is
`\x7bASIC_0\x7d:\x7b5,0,0,0,0,0,0,0,0,0\x7d`. -/
theorem delta_header_formula (before after : CounterMap) (asic_id : Nat) :
    throttler_delta_header asic_id (delta_counts_of before after) =
      "\x7bASIC_" ++ toString asic_id ++ "\x7d:" ++ "\x7b" ++
        String.intercalate ","
          (throttler_name.map (fun n =>
            toString ((pyGetN after n : Int) - (pyGetN before n : Int)))) ++ "\x7d" ∧
    delta_counts_of [("Fmax", 10), ("TDP", 20)] [("Fmax", 15), ("TDP", 20)] =
      [("Fmax", 5), ("TDP", 0), ("FastTDC", 0), ("TDC", 0), ("Thm", 0),
       ("BoardPower", 0), ("Voltage", 0), ("GDDRThm", 0), ("DopplerSlow", 0),
       ("DopplerCritical", 0)] ∧
    throttler_delta_header 0
        (delta_counts_of [("Fmax", 10), ("TDP", 20)] [("Fmax", 15), ("TDP", 20)]) =
      "\x7bASIC_0\x7d:\x7b5,0,0,0,0,0,0,0,0,0\x7d" := by
  refine ⟨?_, by decide, by decide⟩
  have h : ∀ n ∈ throttler_name,
      pyGetZ (delta_counts_of before after) n =
        (pyGetN after n : Int) - (pyGetN before n : Int) := by
    intro n hn
    unfold pyGetZ delta_counts_of
    rw [lookup_map_key (fun name => (pyGetN after name : Int) - (pyGetN before name : Int))
      throttler_name n hn]
    rfl
  unfold throttler_delta_header
  rw [List.map_congr_left h, List.map_map]
  rfl

/-- Witness for C4 (amended): the header formula instantiated at empty maps. -/
theorem delta_header_formula_witness :
    throttler_delta_header 0 (delta_counts_of [] []) =
      "\x7bASIC_" ++ toString 0 ++ "\x7d:" ++ "\x7b" ++
        String.intercalate ","
          (throttler_name.map (fun n =>
            toString ((pyGetN [] n : Int) - (pyGetN [] n : Int)))) ++ "\x7d" :=
  (delta_header_formula [] [] 0).1

/-- C10: delta computation and header serialization are total over the fixed
10-name ordering: the delta dict always has exactly the ten fixed names as keys in
order, a name absent from a counter map reads as 0, and the header renders exactly
the delta dict's ten values in order. -/
theorem delta_and_header_total (before after : CounterMap) (asic_id : Nat) :
    throttler_name.length = NUM_THROTTLERS ∧
    (delta_counts_of before after).length = NUM_THROTTLERS ∧
    (delta_counts_of before after).map Prod.fst = throttler_name ∧
    (∀ n, n ∈ throttler_name →
      (delta_counts_of before after).lookup n =
        some ((pyGetN after n : Int) - (pyGetN before n : Int))) ∧
    (∀ (m : CounterMap) (n : String), n ∉ m.map Prod.fst → pyGetN m n = 0) ∧
    throttler_delta_header asic_id (delta_counts_of before after) =
      "\x7bASIC_" ++ toString asic_id ++ "\x7d:" ++ "\x7b" ++
        String.intercalate ","
          ((delta_counts_of before after).map (fun p => toString p.2)) ++ "\x7d" := by
  refine ⟨rfl, by simp [delta_counts_of]; rfl, by simp [delta_counts_of, List.map_map]; rfl,
    ?_, ?_, ?_⟩
  · intro n hn
    unfold delta_counts_of
    exact lookup_map_key _ throttler_name n hn
  · intro m n hn
    unfold pyGetN
    rw [lookup_eq_none_of_not_mem_keys m n hn]
    rfl
  · have h : ∀ n ∈ throttler_name,
        pyGetZ (delta_counts_of before after) n =
          (pyGetN after n : Int) - (pyGetN before n : Int) := by
      intro n hn
      unfold pyGetZ delta_counts_of
      rw [lookup_map_key (fun name => (pyGetN after name : Int) - (pyGetN before name : Int))
        throttler_name n hn]
      rfl
    unfold throttler_delta_header
    rw [List.map_congr_left h, List.map_map]
    unfold delta_counts_of
    rw [List.map_map]
    rfl

/-- Witness for C10: on empty maps, the first counter name looks up to the
difference of two absent (hence 0) counts. -/
theorem delta_and_header_total_witness :
    (delta_counts_of [] []).lookup "Fmax" =
      some ((pyGetN [] "Fmax" : Int) - (pyGetN [] "Fmax" : Int)) ∧
    pyGetN [] "Fmax" = 0 :=
  ⟨(delta_and_header_total [] [] 0).2.2.2.1 "Fmax" (by decide),
   (delta_and_header_total [] [] 0).2.2.2.2.1 [] "Fmax" (by decide)⟩

/-- C8: when the target artifact exists, publishing rewrites it as the delta
header followed by exactly the original content (the original is preserved as a
suffix), and an injected rewrite fault surfaces as an explicit error, never as a
silent success. -/
theorem publish_prepend_preserves (before after : Snapshot) (orig : String) :
    publish_delta (final_header_of before after) (some orig) true =
      Except.ok (some (final_header_of before after ++ orig)) ∧
    orig.data <:+ (final_header_of before after ++ orig).data ∧
    publish_delta (final_header_of before after) (some orig) false =
      Except.error "IOError" := by
  refine ⟨rfl, ?_, rfl⟩
  have hd : (final_header_of before after ++ orig).data =
      (final_header_of before after).data ++ orig.data := rfl
  rw [hd]
  exact List.suffix_append _ _

/-- Witness for C8: publishing onto a one-line log. -/
theorem publish_prepend_preserves_witness :
    publish_delta (final_header_of [] []) (some "line") true =
      Except.ok (some (final_header_of [] [] ++ "line")) ∧
    "line".data <:+ (final_header_of [] [] ++ "line").data ∧
    publish_delta (final_header_of [] []) (some "line") false = Except.error "IOError" :=
  publish_prepend_preserves [] [] "line"

/-- After the `finally` block's conditional kill, the process is dead no matter
what the poll said. -/
theorem procAlive_after_conditional_kill (b : ProcBehavior) (t : Nat) (term : Bool) :
    procAlive b t term (procAlive b t term false) = false := by
  cases h : procAlive b t term false
  · exact h
  · simp [procAlive]

/-- C7: on every exit path of the controller (completion, timeout, or an
exception escaping the pump loop), the workload process is no longer alive when
the controller hands back control. -/
theorem controller_no_leak (b : ProcBehavior) (s : StreamBehavior) (raiseAt : Option Nat)
    (timeout_sec : Int) (fuel : Nat) (r : CtrlResult)
    (h : run_controller b s raiseAt timeout_sec fuel = some r) :
    r.aliveAtReturn = false := by
  unfold run_controller at h
  cases hp : pump_loop b s raiseAt timeout_sec fuel 0 with
  | none => rw [hp] at h; cases h
  | some x =>
      obtain ⟨ex, t, term⟩ := x
      rw [hp] at h
      simp only [Option.some.injEq] at h
      rw [← h]
      exact procAlive_after_conditional_kill b t term

/-- Witness for C7: a workload that exits immediately, with the controller
returning the completed result. -/
theorem controller_no_leak_witness :
    (⟨LoopExit.completed, 0, false, false, false⟩ : CtrlResult).aliveAtReturn = false :=
  controller_no_leak ⟨some 0, 0, false⟩ ⟨none, fun _ => none⟩ none 3 10 _ (by decide)

/-- For a workload that never exits on its own and never closes its stdout, the
pump loop blocks forever once inside the loop body: whatever the fuel, as long
as the deadline has not yet passed when an iteration starts, the loop neither
completes nor times out — the `stdout.read()` call never returns. -/
theorem pump_loop_blocks (b : ProcBehavior) (s : StreamBehavior) (ts : Int)
    (hne : b.exitsAt = none) (heof : s.eofAt = none) :
    ∀ (fuel t : Nat), (t : Int) ≤ ts → pump_loop b s none ts fuel t = none := by
  intro fuel t hts
  cases fuel with
  | zero => rfl
  | succ fuel =>
      have halive : procAlive b t false false = true := by simp [procAlive, hne]
      unfold pump_loop
      rw [halive]
      have hgt : ¬ ((t : Int) > ts) := by omega
      simp only [Bool.not_true, Bool.false_eq_true, if_false, hgt, reduceCtorEq, heof]
      cases s.nextLineAt t <;> simp

/-- C1 (code bug): the deadline check, the terminate call and the timeout
message all exist in `run_metal_test`, but `remaining = docker_process.stdout.read()`
sits inside the `while` body and blocks until end-of-file. So for a requested
timeout of `T` minutes with warm-up at most `60 T` seconds and a workload that
never exits on its own and keeps its stdout open, the controller never reaches
the deadline check again after its first read: for every fuel bound it produces
no outcome at all — no `TimedOut` transition, no termination request — instead
of timing out at `60 T - warmup` seconds as the claim states. -/
theorem timeout_never_fires (T warmup : Nat) (b : ProcBehavior) (s : StreamBehavior)
    (hne : b.exitsAt = none) (heof : s.eofAt = none) (hw : warmup ≤ 60 * T) :
    ∀ fuel, run_controller b s none ((60 * T : Int) - (warmup : Int)) fuel = none := by
  intro fuel
  unfold run_controller
  rw [pump_loop_blocks b s _ hne heof fuel 0 (by omega)]

/-- Witness for C1: one-minute timeout, 20-second warm-up, a workload that never
exits and keeps stdout open while producing a line whenever one is read. -/
theorem timeout_never_fires_witness :
    run_controller ⟨none, 0, true⟩ ⟨none, fun t => some t⟩ none
      ((60 * (1 : Nat) : Int) - ((20 : Nat) : Int)) 1000 = none :=
  timeout_never_fires 1 20 ⟨none, 0, true⟩ ⟨none, fun t => some t⟩ rfl rfl (by decide) 1000

/-- A fully healthy environment for a complete `--test all` run with a wan model:
every dependency present, both snapshots succeeding, the prepend succeeding,
the workload completing on its own. -/
def env_full_run : Env :=
  ⟨"wan", "all", true, true, true, true, true, true, LoopEnd.completes, false, true, true,
   true, true⟩

/-- The same run interrupted by the operator during the pump loop. -/
def env_interrupted : Env :=
  { env_full_run with loopEnd := LoopEnd.interrupted, workloadAliveAtFinally := true }

/-- Counterexample for C6: on an operator interruption the KeyboardInterrupt
propagates out of `main` past the reset call, so the counter-reset utility is
invoked zero times, not exactly once; the script exits 1. -/
theorem reset_skipped_on_interrupt :
    (program_trace env_interrupted).1.count Event.resetInvoke = 0 ∧
    (program_trace env_interrupted).2 = 1 := by decide

/-- C6 (amended): for a workload that completes or times out and whose post-run
reconciliation also completes (the after snapshot succeeds and the log prepend
raises no I/O error), the counter-reset utility is invoked exactly once, as the
last external action of the run, after workload and sidecar teardown. It is not
invoked on an operator interruption, an uncaught stream error, a failed after
snapshot following a successful before snapshot, or an I/O error during the
prepend: all of these propagate past the reset call in `main`. -/
theorem reset_once_and_last (e : Env)
    (hm : e.model = "llama" ∨ e.model = "wan")
    (hld : e.model = "llama" → e.llamaDirExists = true)
    (harg : e.arg = "all" ∨ e.arg = "read_throttler_count" ∨ e.arg = "read_telemetry")
    (htel : e.telemScriptExists = true)
    (hsmi : e.ttSmiExists = true)
    (hend : e.loopEnd = LoopEnd.completes ∨ e.loopEnd = LoopEnd.timesOut) :
    (e.afterSnapshotOk = true → e.prependOk = true →
       (program_trace e).1.count Event.resetInvoke = 1 ∧
       (program_trace e).1.getLast? = some Event.resetInvoke) ∧
    (e.beforeSnapshotOk = true → e.afterSnapshotOk = false →
       (e.arg = "all" ∨ e.arg = "read_throttler_count") →
       (program_trace e).1.count Event.resetInvoke = 0 ∧ (program_trace e).2 = 1) ∧
    (e.beforeSnapshotOk = true → e.dockerLogExists = true → e.prependOk = false →
       (e.arg = "all" ∨ e.arg = "read_throttler_count") →
       (program_trace e).1.count Event.resetInvoke = 0 ∧ (program_trace e).2 = 1) := by
  obtain ⟨model, arg, bsok, asok, lde, tse, sas, sg, le, waf, tsx, tok, dle, pok⟩ := e
  simp only at hm hld harg htel hsmi hend ⊢
  subst htel hsmi
  rcases hm with hm | hm <;> subst hm <;>
    rcases harg with harg | harg | harg <;> subst harg <;>
    rcases hend with hend | hend <;> subst hend <;>
    refine ⟨fun h1 h2 => ?_, fun h1 h2 h3 => ?_, fun h1 h2 h3 h4 => ?_⟩ <;>
    first
      | (rcases h3 with h3 | h3 <;> exact absurd h3 (by decide))
      | (rcases h4 with h4 | h4 <;> exact absurd h4 (by decide))
      | (subst h1; subst h2;
         first
           | (have hld' := hld rfl; subst hld';
              cases bsok <;> cases sas <;> cases sg <;> cases waf <;> cases tok <;>
                cases dle <;> decide)
           | (cases lde <;> cases bsok <;> cases sas <;> cases sg <;> cases waf <;>
              cases tok <;> cases dle <;> decide))
      | (subst h1; subst h2;
         first
           | (have hld' := hld rfl; subst hld';
              cases sas <;> cases sg <;> cases waf <;> cases tok <;> cases dle <;>
                cases pok <;> decide)
           | (cases lde <;> cases sas <;> cases sg <;> cases waf <;> cases tok <;>
              cases dle <;> cases pok <;> decide))
      | (subst h1; subst h2; subst h3;
         first
           | (have hld' := hld rfl; subst hld';
              cases asok <;> cases sas <;> cases sg <;> cases waf <;> cases tok <;>
                decide)
           | (cases lde <;> cases asok <;> cases sas <;> cases sg <;> cases waf <;>
              cases tok <;> decide))

/-- Witness for C6 (amended): the healthy completed run invokes the reset
utility exactly once, as its last action; the same run with a failed after
snapshot never invokes it and exits 1. -/
theorem reset_once_and_last_witness :
    ((program_trace env_full_run).1.count Event.resetInvoke = 1 ∧
     (program_trace env_full_run).1.getLast? = some Event.resetInvoke) ∧
    ((program_trace { env_full_run with afterSnapshotOk := false }).1.count
        Event.resetInvoke = 0 ∧
     (program_trace { env_full_run with afterSnapshotOk := false }).2 = 1) :=
  ⟨(reset_once_and_last env_full_run (Or.inr rfl) (fun _ => rfl) (Or.inl rfl) rfl rfl
      (Or.inl rfl)).1 rfl rfl,
   (reset_once_and_last { env_full_run with afterSnapshotOk := false } (Or.inr rfl)
      (fun _ => rfl) (Or.inl rfl) rfl rfl (Or.inl rfl)).2.1 rfl rfl (Or.inl rfl)⟩

/-- The healthy run but with the before-snapshot attempt failing, exactly as
`read_throttler_counts` fails on a p150 when zero chips are detected. -/
def env_mismatch : Env :=
  { env_full_run with beforeSnapshotOk := (read_throttler_counts "p150" []).isSome }

/-- Counterexample for C9: a topology mismatch (p150 expecting one chip, zero
detected) makes `read_throttler_counts` return no snapshot, yet the run is not
aborted: the workload container is still launched and the script exits 0. -/
theorem mismatch_does_not_abort :
    (read_throttler_counts "p150" []).isSome = false ∧
    Event.launchWorkload ∈ (program_trace env_mismatch).1 ∧
    (program_trace env_mismatch).2 = 0 := by decide

/-- C9 (amended): among the precondition failures, only the missing llama
directory is fatal before any process launch (exit 1, no workload and no sidecar
launched). A failed before-snapshot — as on a topology mismatch — does not abort
the run: the workload is still launched. A missing telemetry executable exits 1
only after the workload has been launched (the teardown then kills it). -/
theorem precondition_launch_behavior (e : Env)
    (harg : e.arg = "all" ∨ e.arg = "read_throttler_count" ∨ e.arg = "read_telemetry") :
    (e.model = "llama" → e.llamaDirExists = false →
       Event.launchWorkload ∉ (program_trace e).1 ∧
       Event.launchSidecar ∉ (program_trace e).1 ∧
       (program_trace e).2 = 1) ∧
    (e.model = "wan" → e.beforeSnapshotOk = false →
       Event.launchWorkload ∈ (program_trace e).1) ∧
    (e.model = "wan" → e.arg ≠ "read_throttler_count" → e.telemScriptExists = false →
       Event.launchWorkload ∈ (program_trace e).1 ∧ (program_trace e).2 = 1) := by
  obtain ⟨model, arg, bsok, asok, lde, tse, sas, sg, le, waf, tsx, tok, dle, pok⟩ := e
  simp only at harg ⊢
  rcases harg with h | h | h <;> subst h <;>
    refine ⟨fun h1 h2 => ?_, fun h1 h2 => ?_, fun h1 h2 h3 => ?_⟩ <;>
    first
      | exact absurd rfl h2
      | (subst h1; subst h2;
         simp [program_trace, main_trace, run_metal_test_trace, rmt_finally,
           tt_smi_reset_trace, exit_code_of];
         done)
      | (subst h1; subst h2;
         cases tse <;> cases le <;>
           simp [program_trace, main_trace, run_metal_test_trace, rmt_finally,
             tt_smi_reset_trace, exit_code_of];
         done)
      | (subst h1; subst h3;
         simp [program_trace, main_trace, run_metal_test_trace, rmt_finally,
           tt_smi_reset_trace, exit_code_of];
         done)

/-- The healthy run but with the model set to llama and its weights directory
missing. -/
def env_nodir : Env :=
  { env_full_run with model := "llama", llamaDirExists := false }

/-- The healthy run but with the telemetry sampling script missing. -/
def env_notelem : Env :=
  { env_full_run with telemScriptExists := false, workloadAliveAtFinally := true }

/-- Witness for C9 (amended): a missing llama directory launches nothing and
exits 1; a missing telemetry script still launches the workload yet exits 1. -/
theorem precondition_launch_behavior_witness :
    (Event.launchWorkload ∉ (program_trace env_nodir).1 ∧
     Event.launchSidecar ∉ (program_trace env_nodir).1 ∧
     (program_trace env_nodir).2 = 1) ∧
    (Event.launchWorkload ∈ (program_trace env_notelem).1 ∧
     (program_trace env_notelem).2 = 1) :=
  ⟨(precondition_launch_behavior env_nodir (Or.inl rfl)).1 rfl rfl,
   (precondition_launch_behavior env_notelem (Or.inl rfl)).2.2 rfl (by decide) rfl⟩

/-- A key whose lookup finds a value is in the key column. -/
theorem mem_keys_of_lookup_isSome {κ β : Type} [BEq κ] [LawfulBEq κ] :
    ∀ (l : List (κ × β)) (n : κ), (l.lookup n).isSome = true → n ∈ l.map Prod.fst := by
  intro l
  induction l with
  | nil => intro n h; cases h
  | cons p l ih =>
      intro n h
      obtain ⟨k, b⟩ := p
      simp only [List.lookup] at h
      simp only [List.map_cons, List.mem_cons]
      cases hk : (n == k) with
      | true => exact Or.inl (eq_of_beq hk)
      | false => rw [hk] at h; exact Or.inr (ih n h)

/-- Any member of a list of naturals is bounded by its foldr max. -/
theorem le_foldr_max : ∀ (l : List Nat) (k : Nat), k ∈ l → k ≤ l.foldr max 0 := by
  intro l
  induction l with
  | nil => intro k h; cases h
  | cons a l ih =>
      intro k h
      rcases List.mem_cons.mp h with h' | h'
      · subst h'; exact le_max_left _ _
      · exact le_trans (ih k h') (le_max_right _ _)

/-- A chip id present in either snapshot's key column is listed by `chip_ids_of`. -/
theorem mem_chip_ids_of (before after : Snapshot) (k : Nat)
    (h : k ∈ before.map Prod.fst ++ after.map Prod.fst) :
    k ∈ chip_ids_of before after := by
  unfold chip_ids_of
  refine List.mem_filter.mpr ⟨?_, ?_⟩
  · exact List.mem_range.mpr (Nat.lt_succ_of_le (le_foldr_max _ k h))
  · simpa using h

/-- A filterMap whose function is `some ∘ g` exactly on the predicate `p` is the
map of `g` over the filter of `p`. -/
theorem filterMap_eq_map_filter {α β : Type} (f : α → Option β) (p : α → Bool) (g : α → β)
    (hf : ∀ x, f x = if p x then some (g x) else none) :
    ∀ l : List α, l.filterMap f = (l.filter p).map g := by
  intro l
  induction l with
  | nil => rfl
  | cons a l ih =>
      rw [List.filterMap_cons, List.filter_cons, hf a]
      cases hp : p a
      · simp only [Bool.false_eq_true, if_false]
        exact ih
      · simp only [if_true, List.map_cons]
        rw [ih]

/-- The delta lines are exactly one header line per chip id present in both
snapshots, in ascending id order. -/
theorem delta_lines_eq_map (before after : Snapshot) :
    delta_lines_of before after = (delta_ids_of before after).map (fun i =>
      throttler_delta_header i
        (delta_counts_of ((before.lookup i).getD []) ((after.lookup i).getD [])) ++ "\n") := by
  unfold delta_lines_of delta_ids_of
  refine filterMap_eq_map_filter _ _ _ ?_ _
  intro i
  cases hb : before.lookup i <;> cases ha : after.lookup i <;> simp [hb, ha]

/-- The counter dict used in C5 instances. -/
def cm_one : CounterMap := [("Fmax", 1)]

/-- Counterexample for C5: device 1 appears in the after snapshot but not the
before snapshot (the claim's vice-versa case), yet the delta-mode report contains
no missing-or-corrupted flag for it — the reporting loop skips it silently. The
numeric delta output also excludes it, listing only device 0. -/
theorem vice_versa_not_flagged :
    ¬ (ReportLine.missingCorrupted 1 ∈
        print_throttler_counts (some [(0, cm_one)]) (some [(0, cm_one), (1, cm_one)])) ∧
    delta_lines_of [(0, cm_one)] [(0, cm_one), (1, cm_one)] =
      [throttler_delta_header 0 (delta_counts_of cm_one cm_one) ++ "\n"] := by decide

/-- C5 (amended): a device present in `before` but missing from `after` is
flagged with the missing-or-corrupted message by the reporting step and excluded
from the numeric delta output; a device present only in `after` is excluded from
the delta but not flagged; every device present in both snapshots contributes a
delta line, and the delta output is exactly one line per such device. -/
theorem missing_device_reporting (before after : Snapshot) (asic_id : Nat)
    (hb : asic_id ∈ before.map Prod.fst) (ha : after.lookup asic_id = none)
    (hane : after ≠ []) :
    ReportLine.missingCorrupted asic_id ∈
      print_throttler_counts (some before) (some after) ∧
    asic_id ∉ delta_ids_of before after ∧
    delta_lines_of before after = (delta_ids_of before after).map (fun i =>
      throttler_delta_header i
        (delta_counts_of ((before.lookup i).getD []) ((after.lookup i).getD [])) ++ "\n") ∧
    (∀ j, (before.lookup j).isSome = true → (after.lookup j).isSome = true →
       j ∈ delta_ids_of before after) := by
  obtain ⟨bc, hbc⟩ := Option.isSome_iff_exists.mp (lookup_isSome_of_mem_keys before asic_id hb)
  have hbne : before.isEmpty = false := by
    cases before
    · cases hb
    · rfl
  have hae : after.isEmpty = false := by
    cases after
    · exact absurd rfl hane
    · rfl
  refine ⟨?_, ?_, delta_lines_eq_map before after, ?_⟩
  · unfold print_throttler_counts
    simp only [hbne, hae, Bool.not_false, Bool.false_eq_true, if_false, if_true]
    refine List.mem_filterMap.mpr ⟨asic_id, ?_, ?_⟩
    · exact mem_chip_ids_of before after asic_id (List.mem_append_left _ hb)
    · simp only [Option.getD_some, hbc, ha]
  · intro hmem
    have hp := (List.mem_filter.mp hmem).2
    rw [ha] at hp
    simp at hp
  · intro j hjb hja
    refine List.mem_filter.mpr ⟨?_, ?_⟩
    · exact mem_chip_ids_of before after j
        (List.mem_append_left _ (mem_keys_of_lookup_isSome before j hjb))
    · simp [hjb, hja]

/-- Witness for C5 (amended): device 1 present before but not after is flagged
and excluded, while device 0 (present in both) still gets its delta line. -/
theorem missing_device_reporting_witness :
    ReportLine.missingCorrupted 1 ∈
      print_throttler_counts (some [(0, cm_one), (1, cm_one)]) (some [(0, cm_one)]) ∧
    1 ∉ delta_ids_of [(0, cm_one), (1, cm_one)] [(0, cm_one)] ∧
    0 ∈ delta_ids_of [(0, cm_one), (1, cm_one)] [(0, cm_one)] := by
  have h := missing_device_reporting [(0, cm_one), (1, cm_one)] [(0, cm_one)] 1
    (by decide) (by decide) (by decide)
  exact ⟨h.1, h.2.1, h.2.2.2 0 (by decide) (by decide)⟩

end ThrottlerHarness
